import Mathlib

/-!
Verification of the kaspa-rpc-proxy gateway core: a shallow embedding of the
RPC correlation/relay layer (`src/client.rs`), the error-to-HTTP mapping
(`src/error.rs`), the HTTP handlers (`src/handlers.rs`), the WebSocket
subscription relay (`src/websocket.rs`) and the latency-recording boundary
(`src/metrics.rs`).  Machine integers are modelled as `Nat`/`Int` (the code
only copies the wide fields; the one place arithmetic happens, the atomic
request-id counter, carries an explicit `% 2^64`).  `f64` fields, which the
code never inspects, are carried as their raw bit pattern.  Streams are
modelled as lists of received items; asynchronous sends are modelled as an
explicit trace of opened streams and their outbound message sequences.
-/

namespace KaspaProxy

/-- `2^64`, the wrap-around modulus of Rust's `u64`. -/
def U64MOD : Nat := 2 ^ 64

/-- An `f64` value carried opaquely by its bit pattern: the gateway never
reads or computes with these fields, it only copies them. -/
structure F64 where
  bits : Nat
deriving DecidableEq, Repr

/-! ## Protobuf wire types (`protowire`), as used by `src/client.rs`,
`src/handlers.rs` and `src/websocket.rs`.  Only the fields the gateway code
accesses are modelled; each structure lists exactly those fields. -/

/-- `protowire::RPCError`: the domain-level error a node attaches to a
response message (`resp.error` in `src/client.rs`). -/
structure ProtoRpcError where
  message : String
deriving DecidableEq, Repr

/-- `protowire::RpcOutpoint`. -/
structure RpcOutpoint where
  transaction_id : String
  index : Nat
deriving DecidableEq, Repr

/-- `protowire::RpcScriptPublicKey`. -/
structure RpcScriptPublicKey where
  script_public_key : String
  version : Nat
deriving DecidableEq, Repr

/-- `protowire::RpcUtxoEntry` (fields read in `src/websocket.rs`). -/
structure RpcUtxoEntry where
  amount : Nat
  script_public_key : Option RpcScriptPublicKey
  block_daa_score : Nat
  is_coinbase : Bool
deriving DecidableEq, Repr

/-- `protowire::RpcUtxosByAddressesEntry` (fields read in `src/websocket.rs`). -/
structure UtxosByAddressesEntry where
  address : String
  outpoint : Option RpcOutpoint
  utxo_entry : Option RpcUtxoEntry
deriving DecidableEq, Repr

/-- `protowire::RpcTransactionVerboseData` (fields read in `src/handlers.rs`). -/
structure RpcTransactionVerboseData where
  transaction_id : String
  hash : String
deriving DecidableEq, Repr

/-- `protowire::RpcTransactionInput` (fields set in
`convert_to_proto_transaction` and read in the `get_block` handler). -/
structure RpcTransactionInput where
  previous_outpoint : Option RpcOutpoint
  signature_script : String
  sequence : Nat
  sig_op_count : Nat
deriving DecidableEq, Repr

/-- `protowire::RpcTransactionOutput`. -/
structure RpcTransactionOutput where
  amount : Nat
  script_public_key : Option RpcScriptPublicKey
deriving DecidableEq, Repr

/-- `protowire::RpcTransaction` (fields set in `convert_to_proto_transaction`
and read in the `get_block` handler). -/
structure RpcTransaction where
  version : Nat
  inputs : List RpcTransactionInput
  outputs : List RpcTransactionOutput
  lock_time : Nat
  subnetwork_id : String
  gas : Nat
  payload : String
  mass : Nat
  verbose_data : Option RpcTransactionVerboseData
deriving DecidableEq, Repr

/-- `protowire::RpcBlockHeader` (fields read in the `get_block` handler). -/
structure RpcBlockHeader where
  hash : String
  version : Nat
  hash_merkle_root : String
  accepted_id_merkle_root : String
  utxo_commitment : String
  timestamp : Int
  bits : Nat
  nonce : Nat
  daa_score : Nat
  blue_work : String
  blue_score : Nat
  pruning_point : String
deriving DecidableEq, Repr

/-- `protowire::RpcBlockVerboseData` (fields read in the `get_block` handler). -/
structure RpcBlockVerboseData where
  hash : String
  difficulty : F64
  selected_parent_hash : String
  transaction_ids : List String
  is_header_only : Bool
  blue_score : Nat
  is_chain_block : Bool
deriving DecidableEq, Repr

/-- `protowire::RpcBlock`. -/
structure RpcBlock where
  header : Option RpcBlockHeader
  transactions : List RpcTransaction
  verbose_data : Option RpcBlockVerboseData
deriving DecidableEq, Repr

/-- `protowire::GetBlockRequestMessage`. -/
structure GetBlockRequestMessage where
  hash : String
  include_transactions : Bool
deriving DecidableEq, Repr

/-- `protowire::SubmitTransactionRequestMessage`. -/
structure SubmitTransactionRequestMessage where
  transaction : Option RpcTransaction
  allow_orphan : Bool
deriving DecidableEq, Repr

/-- `protowire::GetUtxosByAddressesRequestMessage`. -/
structure GetUtxosByAddressesRequestMessage where
  addresses : List String
deriving DecidableEq, Repr

/-- `protowire::NotifyUtxosChangedRequestMessage` (fields set in
`KaspaClient::subscribe_utxo_changes`). -/
structure NotifyUtxosChangedRequestMessage where
  command : Int
  addresses : List String
deriving DecidableEq, Repr

/-- `protowire::GetBlockResponseMessage`. -/
structure GetBlockResponseMessage where
  block : Option RpcBlock
  error : Option ProtoRpcError
deriving DecidableEq, Repr

/-- `protowire::SubmitTransactionResponseMessage`. -/
structure SubmitTransactionResponseMessage where
  transaction_id : String
  error : Option ProtoRpcError
deriving DecidableEq, Repr

/-- `protowire::GetBlockDagInfoResponseMessage` (fields read in the
`get_dag_tips` handler). -/
structure GetBlockDagInfoResponseMessage where
  tip_hashes : List String
  block_count : Nat
  header_count : Nat
  difficulty : F64
  past_median_time : Int
  virtual_parent_hashes : List String
  pruning_point_hash : String
  virtual_daa_score : Nat
  error : Option ProtoRpcError
deriving DecidableEq, Repr

/-- `protowire::GetUtxosByAddressesResponseMessage`. -/
structure GetUtxosByAddressesResponseMessage where
  entries : List UtxosByAddressesEntry
  error : Option ProtoRpcError
deriving DecidableEq, Repr

/-- `protowire::UtxosChangedNotificationMessage` (read in `src/websocket.rs`). -/
structure UtxosChangedNotificationMessage where
  added : List UtxosByAddressesEntry
  removed : List UtxosByAddressesEntry
deriving DecidableEq, Repr

/-- `protowire::kaspad_request::Payload`: the tagged union of outbound request
variants the gateway constructs (`src/client.rs`). -/
inductive RequestPayload where
  | GetBlockRequest (m : GetBlockRequestMessage)
  | SubmitTransactionRequest (m : SubmitTransactionRequestMessage)
  | GetBlockDagInfoRequest
  | GetUtxosByAddressesRequest (m : GetUtxosByAddressesRequestMessage)
  | NotifyUtxosChangedRequest (m : NotifyUtxosChangedRequestMessage)
deriving DecidableEq, Repr

/-- `protowire::kaspad_response::Payload`: the tagged union of inbound
response variants.  The gateway pattern-matches only the five variants below;
every other variant of the generated union is represented by `OtherPayload`
(identified by its tag name), which the code treats uniformly via its
catch-all match arms. -/
inductive ResponsePayload where
  | GetBlockResponse (m : GetBlockResponseMessage)
  | SubmitTransactionResponse (m : SubmitTransactionResponseMessage)
  | GetBlockDagInfoResponse (m : GetBlockDagInfoResponseMessage)
  | GetUtxosByAddressesResponse (m : GetUtxosByAddressesResponseMessage)
  | UtxosChangedNotification (m : UtxosChangedNotificationMessage)
  | OtherPayload (tag : String)
deriving DecidableEq, Repr

/-- `protowire::KaspadRequest`: wire envelope with correlation id. -/
structure KaspadRequest where
  id : Nat
  payload : Option RequestPayload
deriving DecidableEq, Repr

/-- `protowire::KaspadResponse`: wire envelope with correlation id. -/
structure KaspadResponse where
  id : Nat
  payload : Option ResponsePayload
deriving DecidableEq, Repr

/-! ## `src/error.rs` -/

/-- `RpcError`: the gateway's error enum (`src/error.rs`). -/
inductive RpcError where
  | Connection (msg : String)
  | Kaspa (msg : String)
  | InvalidResponse (msg : String)
  | Auth (msg : String)
  | BadRequest (msg : String)
  | Internal (msg : String)
deriving DecidableEq, Repr

/-- The `thiserror`-derived `Display` text of each `RpcError` variant. -/
def RpcError.display : RpcError → String
  | .Connection msg => "Connection error: " ++ msg
  | .Kaspa msg => "Kaspa node error: " ++ msg
  | .InvalidResponse msg => "Invalid response: " ++ msg
  | .Auth msg => "Authentication error: " ++ msg
  | .BadRequest msg => "Invalid request: " ++ msg
  | .Internal msg => "Internal error: " ++ msg

/-- A serialised JSON value (`serde_json::Value`): the externally observable
shape of HTTP error bodies and WebSocket messages.  A Rust `Option` that is
`None` serialises to `null`. -/
inductive Json where
  | null
  | str (s : String)
  | num (n : Int)
  | bool (b : Bool)
  | arr (elems : List Json)
  | obj (fields : List (String × Json))

/-- Field lookup in a JSON object (`None` on non-objects / missing keys). -/
def Json.lookupField : Json → String → Option Json
  | .obj fields, key => fields.lookup key
  | _, _ => none

/-- An HTTP response as observed by the caller: status code plus JSON body. -/
structure HttpResponse where
  status : Nat
  body : Json

/-- `impl IntoResponse for RpcError` (`src/error.rs`): the status code chosen
for each variant together with the `ErrorResponse { error, code }` body. -/
def RpcError.into_response : RpcError → HttpResponse
  | .Connection msg =>
      { status := 502, body := .obj [("error", .str msg), ("code", .num 502)] }
  | .Kaspa msg =>
      { status := 400, body := .obj [("error", .str msg), ("code", .num 400)] }
  | .InvalidResponse msg =>
      { status := 500, body := .obj [("error", .str msg), ("code", .num 500)] }
  | .Auth msg =>
      { status := 401, body := .obj [("error", .str msg), ("code", .num 401)] }
  | .BadRequest msg =>
      { status := 400, body := .obj [("error", .str msg), ("code", .num 400)] }
  | .Internal msg =>
      { status := 500, body := .obj [("error", .str msg), ("code", .num 500)] }

/-! ## `src/client.rs`: channel model and the `KaspaClient` methods.

A `tonic` bidirectional stream delivers items of type
`Result<KaspadResponse, Status>`; an item is modelled as
`Except String KaspadResponse` (the `Status` reduced to its display string,
which is all the code uses).  A channel is modelled by its behaviour: a
function from the outbound message sequence handed to `message_stream` to
either a connect-time error or the list of items the resulting inbound
stream will yield.  Alongside the behaviour we keep an explicit trace — how
many streams were opened and which outbound sequence each one carried — so
that stream-open and send counts are provable facts, not assumptions. -/

/-- One item yielded by the inbound half of a stream. -/
abbrev StreamItem := Except String KaspadResponse

/-- The behaviour of the RPC channel: what `message_stream` returns for a
given outbound message sequence. -/
def Channel := List KaspadRequest → Except String (List StreamItem)

/-- Trace of the RPC channel: number of streams opened so far and, per opened
stream, the outbound message sequence sent on it. -/
structure ChannelLog where
  opens : Nat
  sent : List (List KaspadRequest)
deriving DecidableEq, Repr

/-- `self.client.clone().message_stream(outbound)`: opens one new stream on
the channel, sending `outbound` on it, and returns either a transport error
or the inbound items.  The trace records the open and the sent sequence. -/
def message_stream (ch : Channel) (outbound : List KaspadRequest)
    (log : ChannelLog) : Except String (List StreamItem) × ChannelLog :=
  (ch outbound, { opens := log.opens + 1, sent := log.sent ++ [outbound] })

/-- `tokio_stream::once(request)`: a single-element outbound stream. -/
def once (request : KaspadRequest) : List KaspadRequest := [request]

/-- `generate_request_id` (`src/client.rs`): one step of the shared atomic
counter.  `fetch_add(1, Relaxed)` returns the current value and stores the
wrapping successor; the state is the counter value (a `u64`, kept reduced
mod `2^64`). -/
def generate_request_id (counter : Nat) : Nat × Nat :=
  (counter % U64MOD, (counter % U64MOD + 1) % U64MOD)

/-- Initial value of the `COUNTER` static in `generate_request_id`. -/
def COUNTER_INIT : Nat := 1

/-- The ids returned by `n` successive `generate_request_id` calls starting
from counter state `c`. -/
def idsFrom : Nat → Nat → List Nat
  | _, 0 => []
  | c, n + 1 =>
    let step := generate_request_id c
    step.1 :: idsFrom step.2 n

/-- Mutable state threaded through a client call: the request-id counter and
the channel trace. -/
structure ClientState where
  counter : Nat
  log : ChannelLog
deriving DecidableEq, Repr

namespace KaspaClient

/-- `KaspaClient::send_request`: open one stream sending exactly the one
request, await the first inbound item; no item at all is
`InvalidResponse "Empty response stream"`, a transport error (at open or on
the first item) is `Connection`. -/
def send_request (ch : Channel) (request : KaspadRequest)
    (log : ChannelLog) : Except RpcError KaspadResponse × ChannelLog :=
  let opened := message_stream ch (once request) log
  match opened.1 with
  | .error e => (.error (.Connection e), opened.2)
  | .ok items =>
    match items.head? with
    | none => (.error (.InvalidResponse "Empty response stream"), opened.2)
    | some (.error e) => (.error (.Connection e), opened.2)
    | some (.ok resp) => (.ok resp, opened.2)

/-- `KaspaClient::get_block`: stamp a fresh id, send a
`GetBlockRequest` envelope, match the reply variant, surface a node-side
`error` field as `Kaspa`, and any other variant as
`InvalidResponse "Expected GetBlockResponse"`. -/
def get_block (ch : Channel) (hash : String) (include_transactions : Bool)
    (st : ClientState) : Except RpcError GetBlockResponseMessage × ClientState :=
  let idStep := generate_request_id st.counter
  let request : KaspadRequest :=
    { id := idStep.1
    , payload := some (.GetBlockRequest { hash := hash, include_transactions := include_transactions }) }
  let sent := send_request ch request st.log
  let st' : ClientState := { counter := idStep.2, log := sent.2 }
  match sent.1 with
  | .error e => (.error e, st')
  | .ok response =>
    match response.payload with
    | some (.GetBlockResponse resp) =>
      match resp.error with
      | some err => (.error (.Kaspa err.message), st')
      | none => (.ok resp, st')
    | _ => (.error (.InvalidResponse "Expected GetBlockResponse"), st')

/-- `KaspaClient::submit_transaction`. -/
def submit_transaction (ch : Channel) (transaction : RpcTransaction)
    (allow_orphan : Bool) (st : ClientState) :
    Except RpcError SubmitTransactionResponseMessage × ClientState :=
  let idStep := generate_request_id st.counter
  let request : KaspadRequest :=
    { id := idStep.1
    , payload := some (.SubmitTransactionRequest
        { transaction := some transaction, allow_orphan := allow_orphan }) }
  let sent := send_request ch request st.log
  let st' : ClientState := { counter := idStep.2, log := sent.2 }
  match sent.1 with
  | .error e => (.error e, st')
  | .ok response =>
    match response.payload with
    | some (.SubmitTransactionResponse resp) =>
      match resp.error with
      | some err => (.error (.Kaspa err.message), st')
      | none => (.ok resp, st')
    | _ => (.error (.InvalidResponse "Expected SubmitTransactionResponse"), st')

/-- `KaspaClient::get_dag_tips`. -/
def get_dag_tips (ch : Channel) (st : ClientState) :
    Except RpcError GetBlockDagInfoResponseMessage × ClientState :=
  let idStep := generate_request_id st.counter
  let request : KaspadRequest :=
    { id := idStep.1, payload := some .GetBlockDagInfoRequest }
  let sent := send_request ch request st.log
  let st' : ClientState := { counter := idStep.2, log := sent.2 }
  match sent.1 with
  | .error e => (.error e, st')
  | .ok response =>
    match response.payload with
    | some (.GetBlockDagInfoResponse resp) =>
      match resp.error with
      | some err => (.error (.Kaspa err.message), st')
      | none => (.ok resp, st')
    | _ => (.error (.InvalidResponse "Expected GetBlockDagInfoResponse"), st')

/-- `KaspaClient::get_utxos_by_addresses`. -/
def get_utxos_by_addresses (ch : Channel) (addresses : List String)
    (st : ClientState) :
    Except RpcError GetUtxosByAddressesResponseMessage × ClientState :=
  let idStep := generate_request_id st.counter
  let request : KaspadRequest :=
    { id := idStep.1
    , payload := some (.GetUtxosByAddressesRequest { addresses := addresses }) }
  let sent := send_request ch request st.log
  let st' : ClientState := { counter := idStep.2, log := sent.2 }
  match sent.1 with
  | .error e => (.error e, st')
  | .ok response =>
    match response.payload with
    | some (.GetUtxosByAddressesResponse resp) =>
      match resp.error with
      | some err => (.error (.Kaspa err.message), st')
      | none => (.ok resp, st')
    | _ => (.error (.InvalidResponse "Expected GetUtxosByAddressesResponse"), st')

/-- `KaspaClient::subscribe_utxo_changes`: stamp a fresh id, open one stream
sending the one `NotifyUtxosChangedRequest { command: 0, addresses }`
envelope, and hand back the inbound stream (its item list). -/
def subscribe_utxo_changes (ch : Channel) (addresses : List String)
    (st : ClientState) : Except RpcError (List StreamItem) × ClientState :=
  let idStep := generate_request_id st.counter
  let request : KaspadRequest :=
    { id := idStep.1
    , payload := some (.NotifyUtxosChangedRequest
        { command := 0, addresses := addresses }) }
  let opened := message_stream ch (once request) st.log
  let st' : ClientState := { counter := idStep.2, log := opened.2 }
  match opened.1 with
  | .error e => (.error (.Connection e), st')
  | .ok items => (.ok items, st')

end KaspaClient

/-! ## `src/websocket.rs`: the WebSocket subscription relay.

The relay's outward effect is the sequence of JSON text messages it sends on
the socket.  Socket sends are modelled as always accepted (a client
disconnect only truncates the emitted sequence; the shape of each emitted
message is unaffected). -/

/-- `serde_json` rendering of a Rust `Option` field inside `json!`: `None`
becomes `null`, `Some x` becomes the mapped value. -/
def jsonOfOption {α : Type} (o : Option α) (f : α → Json) : Json :=
  match o with
  | none => .null
  | some x => f x

/-- The JSON object built for an outpoint in `handle_utxo_subscription`. -/
def outpointJson (op : RpcOutpoint) : Json :=
  .obj [("transaction_id", .str op.transaction_id), ("index", .num op.index)]

/-- The JSON object built for a UTXO entry in `handle_utxo_subscription`. -/
def utxoEntryJson (utxo : RpcUtxoEntry) : Json :=
  .obj
    [ ("amount", .num utxo.amount)
    , ("script_public_key", jsonOfOption utxo.script_public_key (fun s =>
        .str s.script_public_key))
    , ("block_daa_score", .num utxo.block_daa_score)
    , ("is_coinbase", .bool utxo.is_coinbase) ]

/-- The JSON object built for one entry of `notification.added` in
`handle_utxo_subscription`. -/
def addedEntryJson (entry : UtxosByAddressesEntry) : Json :=
  .obj
    [ ("address", .str entry.address)
    , ("outpoint", jsonOfOption entry.outpoint outpointJson)
    , ("utxo_entry", jsonOfOption entry.utxo_entry utxoEntryJson) ]

/-- The JSON object built for one entry of `notification.removed`. -/
def removedEntryJson (entry : UtxosByAddressesEntry) : Json :=
  .obj
    [ ("address", .str entry.address)
    , ("outpoint", jsonOfOption entry.outpoint outpointJson) ]

/-- The `"type": "utxo_changed"` message built for one
`UtxosChangedNotification`. -/
def utxoChangedJson (n : UtxosChangedNotificationMessage) : Json :=
  .obj
    [ ("type", .str "utxo_changed")
    , ("added", .arr (n.added.map addedEntryJson))
    , ("removed", .arr (n.removed.map removedEntryJson)) ]

/-- The forwarding loop of `handle_utxo_subscription`: for each inbound item,
a `UtxosChangedNotification` payload is forwarded as JSON, any other payload
is skipped, and a stream error emits one error message and stops the loop. -/
def relayEmissions : List StreamItem → List Json
  | [] => []
  | .ok response :: rest =>
    match response.payload with
    | some (.UtxosChangedNotification n) => utxoChangedJson n :: relayEmissions rest
    | _ => relayEmissions rest
  | .error e :: _ =>
    [.obj [("error", .str ("Stream error: " ++ e))]]

/-- Outcome of the `subscribe_utxo` endpoint: either the upgrade was refused
with a plain HTTP status/body, or the socket was upgraded and the handler
sent the given sequence of JSON messages before closing. -/
inductive WsOutcome where
  | rejected (status : Nat) (body : String)
  | upgraded (messages : List Json)

/-- `handle_utxo_subscription`: subscribe upstream; on failure send one
error message and close; on success send the `subscribed` acknowledgement
and then run the forwarding loop. -/
def handle_utxo_subscription (ch : Channel) (addresses : List String)
    (st : ClientState) : WsOutcome × ClientState :=
  let subscribed := KaspaClient.subscribe_utxo_changes ch addresses st
  match subscribed.1 with
  | .error e =>
    (.upgraded [.obj [("error", .str ("Failed to subscribe: " ++ e.display))]],
     subscribed.2)
  | .ok items =>
    (.upgraded
      (.obj [("status", .str "subscribed"), ("addresses", .arr (addresses.map .str))]
        :: relayEmissions items),
     subscribed.2)

/-- Rust's `str::trim` on a character list: drop whitespace from both ends
(the inputs this code meets are ASCII, where Lean's `Char.isWhitespace`
agrees with Rust's notion). -/
def rustTrim (cs : List Char) : List Char :=
  ((cs.dropWhile Char.isWhitespace).reverse.dropWhile Char.isWhitespace).reverse

/-- The address-list parsing in `subscribe_utxo`: split the query string on
commas (`split(',')`), trim each piece, drop empty pieces.  Splitting is
done on the character list, which matches Rust's per-comma splitting
(splitting `""` yields the single piece `""`, later filtered out). -/
def wsQueryAddresses (addresses : String) : List String :=
  ((addresses.data.splitOn ',').map (fun piece => String.mk (rustTrim piece))).filter
    (fun s => s ≠ "")

/-- `subscribe_utxo` (`src/websocket.rs`): parse the comma-separated address
list; an empty result is refused with HTTP 400 `"No addresses provided"`
before the upgrade (so before any stream is opened); otherwise upgrade and
run `handle_utxo_subscription`. -/
def subscribe_utxo (ch : Channel) (queryAddresses : String)
    (st : ClientState) : WsOutcome × ClientState :=
  let addresses := wsQueryAddresses queryAddresses
  if addresses.isEmpty then
    (.rejected 400 "No addresses provided", st)
  else
    handle_utxo_subscription ch addresses st

/-! ## `src/metrics.rs` boundary and `src/handlers.rs` handlers.

`record_latency(endpoint, latency_ms)` is modelled by its invocation log:
the list of endpoint names it has been called with, in order.  The latency
argument is wall-clock time and carries no program-determined value; it is
outside the embedding.  The `RpcResponse` wrapper's `latency_ms` field is
omitted for the same reason. -/

/-- One `record_latency` invocation appended to the invocation log. -/
def record_latency (endpoint : String) (metricsLog : List String) : List String :=
  metricsLog ++ [endpoint]

/-- `models::RpcResponse<T>` without its wall-clock `latency_ms` field. -/
structure RpcResponse (T : Type) where
  success : Bool
  data : Option T
  error : Option String
deriving DecidableEq, Repr

/-- `RpcResponse::success(data, ..)`. -/
def rpcResponseSuccess {T : Type} (data : T) : RpcResponse T :=
  { success := true, data := some data, error := none }

/-- `models::GetBlockRequest`. -/
structure GetBlockRequest where
  hash : String
  include_transactions : Bool
deriving DecidableEq, Repr

/-- `models::BlockHeader` (the JSON response header). -/
structure BlockHeader where
  version : Nat
  hash_merkle_root : String
  accepted_id_merkle_root : String
  utxo_commitment : String
  timestamp : Int
  bits : Nat
  nonce : Nat
  daa_score : Nat
  blue_work : String
  blue_score : Nat
  pruning_point : String
deriving DecidableEq, Repr

/-- `models::OutpointVerbose`. -/
structure OutpointVerbose where
  transaction_id : String
  index : Nat
deriving DecidableEq, Repr

/-- `models::TransactionInputVerbose`. -/
structure TransactionInputVerbose where
  previous_outpoint : OutpointVerbose
  signature_script : String
  sequence : Nat
deriving DecidableEq, Repr

/-- `models::TransactionOutput`. -/
structure TransactionOutput where
  amount : Nat
  script_public_key : String
deriving DecidableEq, Repr

/-- `models::Transaction` (the JSON response transaction). -/
structure Transaction where
  transaction_id : String
  hash : String
  mass : Nat
  inputs : List TransactionInputVerbose
  outputs : List TransactionOutput
deriving DecidableEq, Repr

/-- `models::BlockVerboseData`. -/
structure BlockVerboseData where
  hash : String
  difficulty : F64
  selected_parent_hash : String
  transaction_ids : List String
  is_header_only : Bool
  blue_score : Nat
  is_chain_block : Bool
deriving DecidableEq, Repr

/-- `models::BlockResponse`. -/
structure BlockResponse where
  hash : String
  header : BlockHeader
  transactions : List Transaction
  verbose_data : Option BlockVerboseData
deriving DecidableEq, Repr

/-- `models::SubmitTransactionResponse`. -/
structure SubmitTransactionResponse where
  transaction_id : String
deriving DecidableEq, Repr

/-- `models::Outpoint` (JSON request side). -/
structure Outpoint where
  transaction_id : String
  index : Nat
deriving DecidableEq, Repr

/-- `models::TxInput` (JSON request side). -/
structure TxInput where
  previous_outpoint : Outpoint
  signature_script : String
  sequence : Nat
  sig_op_count : Option Nat
deriving DecidableEq, Repr

/-- `models::ScriptPublicKey` (JSON request side). -/
structure ScriptPublicKey where
  script_public_key : String
  version : Nat
deriving DecidableEq, Repr

/-- `models::TxOutput` (JSON request side). -/
structure TxOutput where
  amount : Nat
  script_public_key : ScriptPublicKey
deriving DecidableEq, Repr

/-- `models::TransactionInput`: the simplified JSON transaction accepted by
the submit endpoint. -/
structure TransactionInput where
  version : Option Nat
  inputs : List TxInput
  outputs : List TxOutput
  lock_time : Option Nat
  subnetwork_id : Option String
  gas : Option Nat
  payload : Option String
deriving DecidableEq, Repr

/-- `models::SubmitTransactionRequest`. -/
structure SubmitTransactionRequest where
  transaction : TransactionInput
  allow_orphan : Bool
deriving DecidableEq, Repr

/-- `models::DAGTipsResponse`. -/
structure DAGTipsResponse where
  tip_hashes : List String
  block_count : Nat
  header_count : Nat
  difficulty : F64
  past_median_time : Int
  virtual_parent_hashes : List String
  pruning_point_hash : String
  virtual_daa_score : Nat
deriving DecidableEq, Repr

/-- `is_valid_hash` (`src/handlers.rs`): 64 characters, all ASCII hex digits.
On every accepted string the characters are ASCII, so character count and
Rust's byte count agree. -/
def is_valid_hash (hash : String) : Bool :=
  hash.length == 64 &&
  hash.data.all (fun c =>
    c.isDigit || ('a' ≤ c && c ≤ 'f') || ('A' ≤ c && c ≤ 'F'))

/-- `convert_to_proto_transaction` (`src/handlers.rs`): JSON transaction to
proto format; absent optional request fields default (`unwrap_or` /
`unwrap_or_default`), `mass` is set to 0 for the node to compute. -/
def convert_to_proto_transaction (tx : TransactionInput) :
    Except RpcError RpcTransaction :=
  .ok
    { version := tx.version.getD 0
    , inputs := tx.inputs.map (fun input =>
        { previous_outpoint := some
            { transaction_id := input.previous_outpoint.transaction_id
            , index := input.previous_outpoint.index }
        , signature_script := input.signature_script
        , sequence := input.sequence
        , sig_op_count := input.sig_op_count.getD 0 })
    , outputs := tx.outputs.map (fun output =>
        { amount := output.amount
        , script_public_key := some
            { script_public_key := output.script_public_key.script_public_key
            , version := output.script_public_key.version } })
    , lock_time := tx.lock_time.getD 0
    , subnetwork_id := tx.subnetwork_id.getD ""
    , gas := tx.gas.getD 0
    , payload := tx.payload.getD ""
    , mass := 0
    , verbose_data := none }

/-- The transaction conversion inlined in the `get_block` handler
(`src/handlers.rs`): absent `verbose_data` yields empty-string id and hash
(`unwrap_or_default`), an absent `previous_outpoint` yields empty id and
index 0, an absent `script_public_key` yields the empty string. -/
def getBlockConvertTransaction (tx : RpcTransaction) : Transaction :=
  { transaction_id := (tx.verbose_data.map (fun v => v.transaction_id)).getD ""
  , hash := (tx.verbose_data.map (fun v => v.hash)).getD ""
  , mass := tx.mass
  , inputs := tx.inputs.map (fun input =>
      { previous_outpoint :=
          { transaction_id :=
              (input.previous_outpoint.map (fun o => o.transaction_id)).getD ""
          , index := (input.previous_outpoint.map (fun o => o.index)).getD 0 }
      , signature_script := input.signature_script
      , sequence := input.sequence })
  , outputs := tx.outputs.map (fun output =>
      { amount := output.amount
      , script_public_key :=
          (output.script_public_key.map (fun s => s.script_public_key)).getD "" }) }

/-- The proto-block-to-JSON conversion of the `get_block` handler, given the
block and its (already unwrapped) header. -/
def getBlockConvert (block : RpcBlock) (header : RpcBlockHeader) : BlockResponse :=
  { hash := header.hash
  , header :=
      { version := header.version
      , hash_merkle_root := header.hash_merkle_root
      , accepted_id_merkle_root := header.accepted_id_merkle_root
      , utxo_commitment := header.utxo_commitment
      , timestamp := header.timestamp
      , bits := header.bits
      , nonce := header.nonce
      , daa_score := header.daa_score
      , blue_work := header.blue_work
      , blue_score := header.blue_score
      , pruning_point := header.pruning_point }
  , transactions := block.transactions.map getBlockConvertTransaction
  , verbose_data := block.verbose_data.map (fun vd =>
      { hash := vd.hash
      , difficulty := vd.difficulty
      , selected_parent_hash := vd.selected_parent_hash
      , transaction_ids := vd.transaction_ids
      , is_header_only := vd.is_header_only
      , blue_score := vd.blue_score
      , is_chain_block := vd.is_chain_block }) }

/-- State threaded through an HTTP handler: the client state plus the
`record_latency` invocation log. -/
structure HandlerState where
  client : ClientState
  metrics : List String
deriving DecidableEq, Repr

namespace handlers

/-- The `get_block` HTTP handler (`src/handlers.rs`): validate the hash,
call the node, record latency after the call returns successfully, then
convert the proto block to the JSON model. -/
def get_block (ch : Channel) (request : GetBlockRequest) (st : HandlerState) :
    Except RpcError (RpcResponse BlockResponse) × HandlerState :=
  if !is_valid_hash request.hash then
    (.error (.BadRequest "Invalid block hash format"), st)
  else
    let call := KaspaClient.get_block ch request.hash request.include_transactions st.client
    match call.1 with
    | .error e => (.error e, { st with client := call.2 })
    | .ok response =>
      let st' : HandlerState :=
        { client := call.2, metrics := record_latency "get_block" st.metrics }
      match response.block with
      | none => (.error (.InvalidResponse "Block data missing"), st')
      | some block =>
        match block.header with
        | none => (.error (.InvalidResponse "Block header missing"), st')
        | some header =>
          (.ok (rpcResponseSuccess (getBlockConvert block header)), st')

/-- The `submit_transaction` HTTP handler (`src/handlers.rs`). -/
def submit_transaction (ch : Channel) (request : SubmitTransactionRequest)
    (st : HandlerState) :
    Except RpcError (RpcResponse SubmitTransactionResponse) × HandlerState :=
  match convert_to_proto_transaction request.transaction with
  | .error e => (.error e, st)
  | .ok proto_tx =>
    let call := KaspaClient.submit_transaction ch proto_tx request.allow_orphan st.client
    match call.1 with
    | .error e => (.error e, { st with client := call.2 })
    | .ok response =>
      let st' : HandlerState :=
        { client := call.2, metrics := record_latency "submit_transaction" st.metrics }
      (.ok (rpcResponseSuccess { transaction_id := response.transaction_id }), st')

/-- The `get_dag_tips` HTTP handler (`src/handlers.rs`). -/
def get_dag_tips (ch : Channel) (st : HandlerState) :
    Except RpcError (RpcResponse DAGTipsResponse) × HandlerState :=
  let call := KaspaClient.get_dag_tips ch st.client
  match call.1 with
  | .error e => (.error e, { st with client := call.2 })
  | .ok response =>
    let st' : HandlerState :=
      { client := call.2, metrics := record_latency "get_dag_tips" st.metrics }
    (.ok (rpcResponseSuccess
      { tip_hashes := response.tip_hashes
      , block_count := response.block_count
      , header_count := response.header_count
      , difficulty := response.difficulty
      , past_median_time := response.past_median_time
      , virtual_parent_hashes := response.virtual_parent_hashes
      , pruning_point_hash := response.pruning_point_hash
      , virtual_daa_score := response.virtual_daa_score }), st')

end handlers

/-! ## The design's error taxonomy (§7) realised in the code. -/

/-- The five error kinds of the gateway's error taxonomy: transport failure,
empty reply stream, reply-variant mismatch, node-reported domain error, and
locally rejected input. -/
inductive SpecErrorKind where
  | connectionError
  | emptyResponse
  | protocolMismatch
  | remoteError
  | invalidArgument
deriving DecidableEq, Repr

/-- The `RpcError` value the code produces for each taxonomy kind (`msg` is
the dynamic message where the kind carries one): `Connection` on stream
open/item failure, `InvalidResponse "Empty response stream"` when the stream
ends with no reply, `InvalidResponse` with an "Expected ..." message on a
reply-variant mismatch, `Kaspa` for a node-reported error, and `BadRequest`
for locally rejected input. -/
def specErrorOf : SpecErrorKind → String → RpcError
  | .connectionError, msg => .Connection msg
  | .emptyResponse, _ => .InvalidResponse "Empty response stream"
  | .protocolMismatch, msg => .InvalidResponse msg
  | .remoteError, msg => .Kaspa msg
  | .invalidArgument, msg => .BadRequest msg

/-- The three user-facing failure classes: 0 = "try again against the node",
1 = "server-side / upstream-contract bug", 2 = "fix your request". -/
def kindClass : SpecErrorKind → Nat
  | .connectionError => 0
  | .emptyResponse => 1
  | .protocolMismatch => 1
  | .remoteError => 2
  | .invalidArgument => 2

/-! ## Concrete channels and states used to exercise the model. -/

/-- A channel whose streams deliver exactly one item: the given response. -/
def deliver (resp : KaspadResponse) : Channel := fun _ => .ok [.ok resp]

/-- A channel whose streams end before any item is delivered. -/
def emptyChannel : Channel := fun _ => .ok []

/-- Client state at process start: counter at its initial value, no streams
opened yet. -/
def st0 : ClientState :=
  { counter := COUNTER_INIT, log := { opens := 0, sent := [] } }

/-- Handler state at process start: no `record_latency` invocations yet. -/
def hst0 : HandlerState := { client := st0, metrics := [] }

/-- A syntactically valid block hash: 64 hex characters. -/
def sampleHash : String := String.mk (List.replicate 64 'a')

/-! ## Helper lemmas shared by the claim theorems. -/

/-- Whatever the channel does, `send_request` leaves the trace of exactly one
opened stream carrying exactly the one request. -/
theorem send_request_log (ch : Channel) (request : KaspadRequest)
    (log : ChannelLog) :
    (KaspaClient.send_request ch request log).2 =
      { opens := log.opens + 1, sent := log.sent ++ [[request]] } := by
  unfold KaspaClient.send_request message_stream once
  cases h : ch [request] with
  | error e => rfl
  | ok items =>
    cases hh : items.head? with
    | none => simp [h, hh]
    | some item => cases item <;> simp [h, hh]

/-- The final state of `get_block`, on every path: counter advanced once,
one stream opened, the single stamped envelope sent on it. -/
theorem get_block_state (ch : Channel) (hash : String) (incl : Bool)
    (st : ClientState) :
    (KaspaClient.get_block ch hash incl st).2 =
      { counter := (generate_request_id st.counter).2
      , log :=
          { opens := st.log.opens + 1
          , sent := st.log.sent ++
              [[{ id := (generate_request_id st.counter).1
                , payload := some (.GetBlockRequest
                    { hash := hash, include_transactions := incl }) }]] } } := by
  unfold KaspaClient.get_block
  simp only []
  split <;> (try split) <;> (try split) <;> simp_all [send_request_log]

/-- The final state of `submit_transaction`, on every path. -/
theorem submit_transaction_state (ch : Channel) (tx : RpcTransaction)
    (orphan : Bool) (st : ClientState) :
    (KaspaClient.submit_transaction ch tx orphan st).2 =
      { counter := (generate_request_id st.counter).2
      , log :=
          { opens := st.log.opens + 1
          , sent := st.log.sent ++
              [[{ id := (generate_request_id st.counter).1
                , payload := some (.SubmitTransactionRequest
                    { transaction := some tx, allow_orphan := orphan }) }]] } } := by
  unfold KaspaClient.submit_transaction
  simp only []
  split <;> (try split) <;> (try split) <;> simp_all [send_request_log]

/-- The final state of `get_dag_tips`, on every path. -/
theorem get_dag_tips_state (ch : Channel) (st : ClientState) :
    (KaspaClient.get_dag_tips ch st).2 =
      { counter := (generate_request_id st.counter).2
      , log :=
          { opens := st.log.opens + 1
          , sent := st.log.sent ++
              [[{ id := (generate_request_id st.counter).1
                , payload := some .GetBlockDagInfoRequest }]] } } := by
  unfold KaspaClient.get_dag_tips
  simp only []
  split <;> (try split) <;> (try split) <;> simp_all [send_request_log]

/-- The final state of `get_utxos_by_addresses`, on every path. -/
theorem get_utxos_by_addresses_state (ch : Channel) (addrs : List String)
    (st : ClientState) :
    (KaspaClient.get_utxos_by_addresses ch addrs st).2 =
      { counter := (generate_request_id st.counter).2
      , log :=
          { opens := st.log.opens + 1
          , sent := st.log.sent ++
              [[{ id := (generate_request_id st.counter).1
                , payload := some (.GetUtxosByAddressesRequest
                    { addresses := addrs }) }]] } } := by
  unfold KaspaClient.get_utxos_by_addresses
  simp only []
  split <;> (try split) <;> (try split) <;> simp_all [send_request_log]

/-- `get_block` against a channel delivering exactly `resp`: the result is
determined by `resp.payload` alone. -/
theorem get_block_deliver (resp : KaspadResponse) (hash : String) (incl : Bool)
    (st : ClientState) :
    (KaspaClient.get_block (deliver resp) hash incl st).1 =
      match resp.payload with
      | some (.GetBlockResponse r) =>
        match r.error with
        | some err => .error (.Kaspa err.message)
        | none => .ok r
      | _ => .error (.InvalidResponse "Expected GetBlockResponse") := by
  rcases resp with ⟨rid, _ | p⟩
  · rfl
  · cases p <;> try rfl
    rename_i r
    rcases r with ⟨b, _ | e⟩ <;> rfl

/-- `submit_transaction` against a channel delivering exactly `resp`. -/
theorem submit_transaction_deliver (resp : KaspadResponse)
    (tx : RpcTransaction) (orphan : Bool) (st : ClientState) :
    (KaspaClient.submit_transaction (deliver resp) tx orphan st).1 =
      match resp.payload with
      | some (.SubmitTransactionResponse r) =>
        match r.error with
        | some err => .error (.Kaspa err.message)
        | none => .ok r
      | _ => .error (.InvalidResponse "Expected SubmitTransactionResponse") := by
  rcases resp with ⟨rid, _ | p⟩
  · rfl
  · cases p <;> try rfl
    rename_i r
    rcases r with ⟨txid, _ | e⟩ <;> rfl

/-- `get_dag_tips` against a channel delivering exactly `resp`. -/
theorem get_dag_tips_deliver (resp : KaspadResponse) (st : ClientState) :
    (KaspaClient.get_dag_tips (deliver resp) st).1 =
      match resp.payload with
      | some (.GetBlockDagInfoResponse r) =>
        match r.error with
        | some err => .error (.Kaspa err.message)
        | none => .ok r
      | _ => .error (.InvalidResponse "Expected GetBlockDagInfoResponse") := by
  rcases resp with ⟨rid, _ | p⟩
  · rfl
  · cases p <;> try rfl
    rename_i r
    rcases r with ⟨a, b, c, d, e, f, g, i, _ | err⟩ <;> rfl

/-- `get_utxos_by_addresses` against a channel delivering exactly `resp`. -/
theorem get_utxos_by_addresses_deliver (resp : KaspadResponse)
    (addrs : List String) (st : ClientState) :
    (KaspaClient.get_utxos_by_addresses (deliver resp) addrs st).1 =
      match resp.payload with
      | some (.GetUtxosByAddressesResponse r) =>
        match r.error with
        | some err => .error (.Kaspa err.message)
        | none => .ok r
      | _ => .error (.InvalidResponse "Expected GetUtxosByAddressesResponse") := by
  rcases resp with ⟨rid, _ | p⟩
  · rfl
  · cases p <;> try rfl
    rename_i r
    rcases r with ⟨entries, _ | e⟩ <;> rfl

/-- `send_request` against a channel on which every stream ends before any
item: the result is exactly the empty-response failure. -/
theorem send_request_empty (ch : Channel) (h : ∀ out, ch out = .ok [])
    (request : KaspadRequest) (log : ChannelLog) :
    (KaspaClient.send_request ch request log).1 =
      .error (.InvalidResponse "Empty response stream") := by
  unfold KaspaClient.send_request message_stream once
  simp [h]

/-- A sample transaction used to instantiate witnesses. -/
def tx0 : RpcTransaction :=
  { version := 0, inputs := [], outputs := [], lock_time := 0
  , subnetwork_id := "", gas := 0, payload := "", mass := 0
  , verbose_data := none }

/-! ## Claim theorems -/

/-- **C1**: for each unary call (`get_block`, `submit_transaction`,
`get_dag_tips`, `get_utxos_by_addresses`), when the received envelope's
payload variant is not the one implied by the request, the call returns the
protocol-mismatch failure — `RpcError.InvalidResponse "Expected ..."` — and
never a successful typed payload. -/
theorem unary_mismatch_returns_protocol_mismatch
    (resp : KaspadResponse) (st : ClientState) (hash : String) (incl : Bool)
    (tx : RpcTransaction) (orphan : Bool) (addrs : List String) :
    ((∀ m, resp.payload ≠ some (.GetBlockResponse m)) →
      (KaspaClient.get_block (deliver resp) hash incl st).1 =
        .error (.InvalidResponse "Expected GetBlockResponse") ∧
      ∀ r, (KaspaClient.get_block (deliver resp) hash incl st).1 ≠ .ok r) ∧
    ((∀ m, resp.payload ≠ some (.SubmitTransactionResponse m)) →
      (KaspaClient.submit_transaction (deliver resp) tx orphan st).1 =
        .error (.InvalidResponse "Expected SubmitTransactionResponse") ∧
      ∀ r, (KaspaClient.submit_transaction (deliver resp) tx orphan st).1 ≠ .ok r) ∧
    ((∀ m, resp.payload ≠ some (.GetBlockDagInfoResponse m)) →
      (KaspaClient.get_dag_tips (deliver resp) st).1 =
        .error (.InvalidResponse "Expected GetBlockDagInfoResponse") ∧
      ∀ r, (KaspaClient.get_dag_tips (deliver resp) st).1 ≠ .ok r) ∧
    ((∀ m, resp.payload ≠ some (.GetUtxosByAddressesResponse m)) →
      (KaspaClient.get_utxos_by_addresses (deliver resp) addrs st).1 =
        .error (.InvalidResponse "Expected GetUtxosByAddressesResponse") ∧
      ∀ r, (KaspaClient.get_utxos_by_addresses (deliver resp) addrs st).1 ≠ .ok r) := by
  refine ⟨fun h => ?_, fun h => ?_, fun h => ?_, fun h => ?_⟩
  · rw [get_block_deliver]
    rcases hp : resp.payload with _ | p
    · simp
    · cases p <;> first
      | (rename_i m; exact absurd hp (h m))
      | simp
  · rw [submit_transaction_deliver]
    rcases hp : resp.payload with _ | p
    · simp
    · cases p <;> first
      | (rename_i m; exact absurd hp (h m))
      | simp
  · rw [get_dag_tips_deliver]
    rcases hp : resp.payload with _ | p
    · simp
    · cases p <;> first
      | (rename_i m; exact absurd hp (h m))
      | simp
  · rw [get_utxos_by_addresses_deliver]
    rcases hp : resp.payload with _ | p
    · simp
    · cases p <;> first
      | (rename_i m; exact absurd hp (h m))
      | simp

/-- Witness for C1: a response whose payload is an unrelated variant makes
all four unary calls fail with their protocol-mismatch error and never
succeed. -/
theorem unary_mismatch_returns_protocol_mismatch_witness :
    ((KaspaClient.get_block (deliver { id := 7, payload := some (.OtherPayload "Ping") })
        "ab" true st0).1 = .error (.InvalidResponse "Expected GetBlockResponse") ∧
      ∀ r, (KaspaClient.get_block (deliver { id := 7, payload := some (.OtherPayload "Ping") })
        "ab" true st0).1 ≠ .ok r) ∧
    ((KaspaClient.submit_transaction (deliver { id := 7, payload := some (.OtherPayload "Ping") })
        tx0 false st0).1 = .error (.InvalidResponse "Expected SubmitTransactionResponse") ∧
      ∀ r, (KaspaClient.submit_transaction (deliver { id := 7, payload := some (.OtherPayload "Ping") })
        tx0 false st0).1 ≠ .ok r) ∧
    ((KaspaClient.get_dag_tips (deliver { id := 7, payload := some (.OtherPayload "Ping") })
        st0).1 = .error (.InvalidResponse "Expected GetBlockDagInfoResponse") ∧
      ∀ r, (KaspaClient.get_dag_tips (deliver { id := 7, payload := some (.OtherPayload "Ping") })
        st0).1 ≠ .ok r) ∧
    ((KaspaClient.get_utxos_by_addresses (deliver { id := 7, payload := some (.OtherPayload "Ping") })
        ["addrA"] st0).1 = .error (.InvalidResponse "Expected GetUtxosByAddressesResponse") ∧
      ∀ r, (KaspaClient.get_utxos_by_addresses (deliver { id := 7, payload := some (.OtherPayload "Ping") })
        ["addrA"] st0).1 ≠ .ok r) := by
  have h := unary_mismatch_returns_protocol_mismatch
    { id := 7, payload := some (.OtherPayload "Ping") } st0 "ab" true tx0 false ["addrA"]
  exact ⟨h.1 (by simp), h.2.1 (by simp), h.2.2.1 (by simp), h.2.2.2 (by simp)⟩

/-- **C2**: for each unary call, when every stream on the channel ends before
any message arrives, the call fails with exactly the empty-response error
(`InvalidResponse "Empty response stream"`) and no other. -/
theorem unary_empty_stream_returns_empty_response
    (ch : Channel) (h : ∀ out, ch out = .ok []) (st : ClientState)
    (hash : String) (incl : Bool) (tx : RpcTransaction) (orphan : Bool)
    (addrs : List String) :
    (KaspaClient.get_block ch hash incl st).1 =
      .error (.InvalidResponse "Empty response stream") ∧
    (KaspaClient.submit_transaction ch tx orphan st).1 =
      .error (.InvalidResponse "Empty response stream") ∧
    (KaspaClient.get_dag_tips ch st).1 =
      .error (.InvalidResponse "Empty response stream") ∧
    (KaspaClient.get_utxos_by_addresses ch addrs st).1 =
      .error (.InvalidResponse "Empty response stream") := by
  refine ⟨?_, ?_, ?_, ?_⟩
  · unfold KaspaClient.get_block
    simp only []
    rw [send_request_empty ch h]
  · unfold KaspaClient.submit_transaction
    simp only []
    rw [send_request_empty ch h]
  · unfold KaspaClient.get_dag_tips
    simp only []
    rw [send_request_empty ch h]
  · unfold KaspaClient.get_utxos_by_addresses
    simp only []
    rw [send_request_empty ch h]

/-- Witness for C2 on the concrete always-empty channel. -/
theorem unary_empty_stream_returns_empty_response_witness :
    (KaspaClient.get_block emptyChannel "ab" true st0).1 =
      .error (.InvalidResponse "Empty response stream") ∧
    (KaspaClient.submit_transaction emptyChannel tx0 false st0).1 =
      .error (.InvalidResponse "Empty response stream") ∧
    (KaspaClient.get_dag_tips emptyChannel st0).1 =
      .error (.InvalidResponse "Empty response stream") ∧
    (KaspaClient.get_utxos_by_addresses emptyChannel ["addrA"] st0).1 =
      .error (.InvalidResponse "Empty response stream") :=
  unary_empty_stream_returns_empty_response emptyChannel (fun _ => rfl) st0
    "ab" true tx0 false ["addrA"]

/-- **C8**: a matched response carrying a node-set domain error field makes
the call fail with `Kaspa` (the `RemoteError` kind) carrying exactly the
node's message, and `Kaspa` is a different error from `Connection` (the
transport-failure kind) whatever the messages. -/
theorem unary_remote_error_returns_kaspa
    (st : ClientState) (rid : Nat) (msg : String) (hash : String) (incl : Bool)
    (b : Option RpcBlock) (txid : String) (tx : RpcTransaction) (orphan : Bool)
    (addrs : List String) (entries : List UtxosByAddressesEntry)
    (dag : GetBlockDagInfoResponseMessage) :
    (KaspaClient.get_block
        (deliver { id := rid
                 , payload := some (.GetBlockResponse
                     { block := b, error := some { message := msg } }) })
        hash incl st).1 = .error (.Kaspa msg) ∧
    (KaspaClient.submit_transaction
        (deliver { id := rid
                 , payload := some (.SubmitTransactionResponse
                     { transaction_id := txid, error := some { message := msg } }) })
        tx orphan st).1 = .error (.Kaspa msg) ∧
    (KaspaClient.get_dag_tips
        (deliver { id := rid
                 , payload := some (.GetBlockDagInfoResponse
                     { dag with error := some { message := msg } }) })
        st).1 = .error (.Kaspa msg) ∧
    (KaspaClient.get_utxos_by_addresses
        (deliver { id := rid
                 , payload := some (.GetUtxosByAddressesResponse
                     { entries := entries, error := some { message := msg } }) })
        addrs st).1 = .error (.Kaspa msg) ∧
    (∀ m m', RpcError.Kaspa m ≠ RpcError.Connection m') :=
  ⟨rfl, rfl, rfl, rfl, fun _ _ hcontra => RpcError.noConfusion hcontra⟩

/-- A sample DAG-info response used to instantiate witnesses. -/
def dag0 : GetBlockDagInfoResponseMessage :=
  { tip_hashes := [], block_count := 0, header_count := 0
  , difficulty := { bits := 0 }, past_median_time := 0
  , virtual_parent_hashes := [], pruning_point_hash := ""
  , virtual_daa_score := 0, error := none }

/-- Witness for C8: a matched get-block response carrying a node error
yields `Kaspa "bad hash"`, which differs from any `Connection` error. -/
theorem unary_remote_error_returns_kaspa_witness :
    (KaspaClient.get_block
        (deliver { id := 7
                 , payload := some (.GetBlockResponse
                     { block := none, error := some { message := "bad hash" } }) })
        "ab" true st0).1 = .error (.Kaspa "bad hash") ∧
    RpcError.Kaspa "bad hash" ≠ RpcError.Connection "bad hash" := by
  have h := unary_remote_error_returns_kaspa st0 7 "bad hash" "ab" true none
    "txid" tx0 false ["addrA"] [] dag0
  exact ⟨h.1, h.2.2.2.2 "bad hash" "bad hash"⟩

/-- **C9**: every unary call opens exactly one new stream on the channel and
the outbound message sequence handed to that stream at open time — hence
everything sent before the first receive — is exactly the one freshly
stamped envelope. -/
theorem unary_single_open_single_send (ch : Channel) (st : ClientState)
    (hash : String) (incl : Bool) (tx : RpcTransaction) (orphan : Bool)
    (addrs : List String) :
    (KaspaClient.get_block ch hash incl st).2.log =
      { opens := st.log.opens + 1
      , sent := st.log.sent ++
          [[{ id := (generate_request_id st.counter).1
            , payload := some (.GetBlockRequest
                { hash := hash, include_transactions := incl }) }]] } ∧
    (KaspaClient.submit_transaction ch tx orphan st).2.log =
      { opens := st.log.opens + 1
      , sent := st.log.sent ++
          [[{ id := (generate_request_id st.counter).1
            , payload := some (.SubmitTransactionRequest
                { transaction := some tx, allow_orphan := orphan }) }]] } ∧
    (KaspaClient.get_dag_tips ch st).2.log =
      { opens := st.log.opens + 1
      , sent := st.log.sent ++
          [[{ id := (generate_request_id st.counter).1
            , payload := some .GetBlockDagInfoRequest }]] } ∧
    (KaspaClient.get_utxos_by_addresses ch addrs st).2.log =
      { opens := st.log.opens + 1
      , sent := st.log.sent ++
          [[{ id := (generate_request_id st.counter).1
            , payload := some (.GetUtxosByAddressesRequest
                { addresses := addrs }) }]] } :=
  ⟨by rw [get_block_state], by rw [submit_transaction_state],
   by rw [get_dag_tips_state], by rw [get_utxos_by_addresses_state]⟩

/-- **C3 counterexample**: the error-to-HTTP-status mapping is not injective
over the five taxonomy kinds.  EmptyResponse and ProtocolMismatch are
distinct kinds but both produce status 500; RemoteError and InvalidArgument
are distinct kinds but both produce status 400. -/
theorem error_status_mapping_not_injective :
    (SpecErrorKind.emptyResponse ≠ SpecErrorKind.protocolMismatch ∧
      (specErrorOf .emptyResponse "").into_response.status =
        (specErrorOf .protocolMismatch "Expected GetBlockResponse").into_response.status) ∧
    (SpecErrorKind.remoteError ≠ SpecErrorKind.invalidArgument ∧
      (specErrorOf .remoteError "invalid hash").into_response.status =
        (specErrorOf .invalidArgument "Invalid block hash format").into_response.status) :=
  ⟨⟨by decide, rfl⟩, ⟨by decide, rfl⟩⟩

/-- **C3 amended**: each kind maps to 502/500/500/400/400 respectively, so
the mapping distinguishes exactly the three user-facing classes (transport
failure vs. server-side/upstream-contract failure vs. client-correctable
failure): kinds from different classes always get distinct statuses, while
kinds inside a class share one. -/
theorem error_status_mapping_distinguishes_classes
    (k1 k2 : SpecErrorKind) (m1 m2 : String) :
    ((specErrorOf .connectionError m1).into_response.status = 502 ∧
     (specErrorOf .emptyResponse m1).into_response.status = 500 ∧
     (specErrorOf .protocolMismatch m1).into_response.status = 500 ∧
     (specErrorOf .remoteError m1).into_response.status = 400 ∧
     (specErrorOf .invalidArgument m1).into_response.status = 400) ∧
    (kindClass k1 ≠ kindClass k2 →
      (specErrorOf k1 m1).into_response.status ≠
        (specErrorOf k2 m2).into_response.status) := by
  refine ⟨⟨rfl, rfl, rfl, rfl, rfl⟩, fun h => ?_⟩
  cases k1 <;> cases k2 <;>
    simp_all [kindClass, specErrorOf, RpcError.into_response]

/-- Witness for the amended C3 at two concrete kinds from different
classes. -/
theorem error_status_mapping_distinguishes_classes_witness :
    kindClass .connectionError ≠ kindClass .remoteError ∧
    (specErrorOf .connectionError "x").into_response.status ≠
      (specErrorOf .remoteError "y").into_response.status :=
  ⟨by decide,
   (error_status_mapping_distinguishes_classes .connectionError .remoteError
      "x" "y").2 (by decide)⟩

/-- **C4**: an empty parsed address list makes `subscribe_utxo` return the
400 "No addresses provided" rejection (the status the code gives the
InvalidArgument kind) before the upgrade, leaving the channel untouched:
zero streams opened, nothing sent. -/
theorem subscribe_utxo_empty_addresses_rejected
    (ch : Channel) (st : ClientState) (q : String)
    (h : wsQueryAddresses q = []) :
    subscribe_utxo ch q st = (.rejected 400 "No addresses provided", st) ∧
    (subscribe_utxo ch q st).2.log.opens = st.log.opens ∧
    (subscribe_utxo ch q st).2.log.sent = st.log.sent ∧
    (RpcError.BadRequest "No addresses provided").into_response.status = 400 := by
  have hmain : subscribe_utxo ch q st = (.rejected 400 "No addresses provided", st) := by
    simp [subscribe_utxo, h]
  exact ⟨hmain, by rw [hmain], by rw [hmain], rfl⟩

/-- Witness for C4: the empty query string parses to no addresses and is
rejected with no stream opened. -/
theorem subscribe_utxo_empty_addresses_rejected_witness :
    wsQueryAddresses "" = [] ∧
    subscribe_utxo emptyChannel "" st0 = (.rejected 400 "No addresses provided", st0) ∧
    (subscribe_utxo emptyChannel "" st0).2.log.opens = st0.log.opens ∧
    (subscribe_utxo emptyChannel "" st0).2.log.sent = st0.log.sent ∧
    (RpcError.BadRequest "No addresses provided").into_response.status = 400 := by
  have h : wsQueryAddresses "" = [] := by decide
  have hall := subscribe_utxo_empty_addresses_rejected emptyChannel st0 "" h
  exact ⟨h, hall.1, hall.2.1, hall.2.2.1, hall.2.2.2⟩

/-- `idsFrom` produces consecutive values while the counter stays below the
wrap-around bound. -/
theorem idsFrom_eq_range' :
    ∀ (n c : Nat), c + n ≤ U64MOD → idsFrom c n = List.range' c n := by
  intro n
  induction n with
  | zero => intro c _; rfl
  | succ m ih =>
    intro c hc
    have hclt : c < U64MOD := by omega
    unfold idsFrom generate_request_id
    simp only [Nat.mod_eq_of_lt hclt]
    rw [List.range'_succ]
    cases m with
    | zero => rfl
    | succ k =>
      have hc1 : c + 1 < U64MOD := by omega
      rw [Nat.mod_eq_of_lt hc1, ih (c + 1) (by omega)]

/-- **C6**: starting from the initial counter value, any number of
`generate_request_id` calls that stays short of the `2^64` wrap-around
yields ids that are pairwise strictly increasing (each id exceeds every
earlier one, so no value is ever reissued) and never 0. -/
theorem generate_request_id_nonzero_strictly_increasing (n : Nat)
    (h : n ≤ U64MOD - 1) :
    (idsFrom COUNTER_INIT n).Pairwise (· < ·) ∧
    0 ∉ idsFrom COUNTER_INIT n := by
  have hU : 0 < U64MOD := by decide
  have hCI : COUNTER_INIT = 1 := rfl
  have he : idsFrom COUNTER_INIT n = List.range' COUNTER_INIT n :=
    idsFrom_eq_range' n COUNTER_INIT (by omega)
  rw [he]
  refine ⟨List.pairwise_lt_range' COUNTER_INIT n, ?_⟩
  rw [hCI]
  simp [List.mem_range'_1]

/-- Witness for C6: five calls from process start give nonzero, strictly
increasing ids. -/
theorem generate_request_id_nonzero_strictly_increasing_witness :
    5 ≤ U64MOD - 1 ∧
    ((idsFrom COUNTER_INIT 5).Pairwise (· < ·) ∧
      0 ∉ idsFrom COUNTER_INIT 5) :=
  ⟨by decide, generate_request_id_nonzero_strictly_increasing 5 (by decide)⟩

/-- **C5**: the relay forwards every UTXO-change notification as
`utxoChangedJson`, and in that value every optional sub-field that is absent
in the push message — an added/removed entry's outpoint, an added entry's
UTXO entry, and a present UTXO entry's script public key — appears as the
explicit JSON `null`, which is distinct from every zero/empty default. -/
theorem relay_preserves_absent_optional_fields
    (rid : Nat) (n : UtxosChangedNotificationMessage) (rest : List StreamItem)
    (entryA entryB : UtxosByAddressesEntry) (u : RpcUtxoEntry) :
    (relayEmissions
        (.ok { id := rid, payload := some (.UtxosChangedNotification n) } :: rest)
      = utxoChangedJson n :: relayEmissions rest) ∧
    ((utxoChangedJson n).lookupField "added"
      = some (.arr (n.added.map addedEntryJson))) ∧
    ((utxoChangedJson n).lookupField "removed"
      = some (.arr (n.removed.map removedEntryJson))) ∧
    (entryA.outpoint = none →
      (addedEntryJson entryA).lookupField "outpoint" = some .null ∧
      (removedEntryJson entryA).lookupField "outpoint" = some .null) ∧
    (entryA.utxo_entry = none →
      (addedEntryJson entryA).lookupField "utxo_entry" = some .null) ∧
    (entryB.utxo_entry = some u →
      (addedEntryJson entryB).lookupField "utxo_entry" = some (utxoEntryJson u) ∧
      (u.script_public_key = none →
        (utxoEntryJson u).lookupField "script_public_key" = some .null)) ∧
    (Json.null ≠ .str "" ∧ Json.null ≠ .num 0 ∧ ∀ fields, Json.null ≠ .obj fields) := by
  obtain ⟨addrA, opA, ueA⟩ := entryA
  obtain ⟨addrB, opB, ueB⟩ := entryB
  obtain ⟨amount, spk, daa, coinbase⟩ := u
  refine ⟨rfl, rfl, rfl, fun h => ?_, fun h => ?_, fun h => ?_,
    by simp, by simp, fun _ => by simp⟩
  · cases h
    exact ⟨rfl, rfl⟩
  · cases h
    rfl
  · cases h
    refine ⟨rfl, fun h2 => ?_⟩
    cases h2
    rfl

/-- Witness for C5 at a concrete notification: an added entry with no
outpoint and no UTXO entry, and a second added entry whose UTXO entry has no
script public key. -/
theorem relay_preserves_absent_optional_fields_witness :
    (relayEmissions
        (.ok { id := 3
             , payload := some (.UtxosChangedNotification
                 { added := [{ address := "addrA", outpoint := none, utxo_entry := none }]
                 , removed := [] }) } :: [])
      = utxoChangedJson
          { added := [{ address := "addrA", outpoint := none, utxo_entry := none }]
          , removed := [] } :: relayEmissions []) ∧
    ((addedEntryJson { address := "addrA", outpoint := none, utxo_entry := none
        }).lookupField "outpoint" = some .null ∧
      (removedEntryJson { address := "addrA", outpoint := none, utxo_entry := none
        }).lookupField "outpoint" = some .null) ∧
    ((addedEntryJson { address := "addrA", outpoint := none, utxo_entry := none
        }).lookupField "utxo_entry" = some .null) ∧
    ((addedEntryJson
        { address := "addrB"
        , outpoint := none
        , utxo_entry := some
            { amount := 7, script_public_key := none
            , block_daa_score := 9, is_coinbase := false } }).lookupField "utxo_entry"
      = some (utxoEntryJson
          { amount := 7, script_public_key := none
          , block_daa_score := 9, is_coinbase := false }) ∧
      (utxoEntryJson
          { amount := 7, script_public_key := none
          , block_daa_score := 9, is_coinbase := false
          }).lookupField "script_public_key" = some .null) := by
  have h := relay_preserves_absent_optional_fields 3
    { added := [{ address := "addrA", outpoint := none, utxo_entry := none }]
    , removed := [] }
    []
    { address := "addrA", outpoint := none, utxo_entry := none }
    { address := "addrB"
    , outpoint := none
    , utxo_entry := some
        { amount := 7, script_public_key := none
        , block_daa_score := 9, is_coinbase := false } }
    { amount := 7, script_public_key := none
    , block_daa_score := 9, is_coinbase := false }
  have h6 := h.2.2.2.2.2.1 rfl
  exact ⟨h.1, h.2.2.2.1 rfl, h.2.2.2.2.1 rfl, ⟨h6.1, h6.2 rfl⟩⟩

/-- **C7 amended**: in each unary HTTP handler, `record_latency` is invoked
with the operation's name exactly once when the upstream RPC call returns
successfully (even if the later response conversion fails), and is not
invoked when local validation fails or the RPC call itself fails. -/
theorem record_latency_exactly_on_rpc_success
    (ch : Channel) (req : GetBlockRequest) (sreq : SubmitTransactionRequest)
    (st : HandlerState) :
    (is_valid_hash req.hash = false →
      (handlers.get_block ch req st).2.metrics = st.metrics) ∧
    (∀ e, (KaspaClient.get_block ch req.hash req.include_transactions st.client).1
        = .error e →
      (handlers.get_block ch req st).2.metrics = st.metrics) ∧
    (∀ r, is_valid_hash req.hash = true →
      (KaspaClient.get_block ch req.hash req.include_transactions st.client).1
        = .ok r →
      (handlers.get_block ch req st).2.metrics = st.metrics ++ ["get_block"]) ∧
    (∀ ptx e, convert_to_proto_transaction sreq.transaction = .ok ptx →
      (KaspaClient.submit_transaction ch ptx sreq.allow_orphan st.client).1
        = .error e →
      (handlers.submit_transaction ch sreq st).2.metrics = st.metrics) ∧
    (∀ ptx r, convert_to_proto_transaction sreq.transaction = .ok ptx →
      (KaspaClient.submit_transaction ch ptx sreq.allow_orphan st.client).1
        = .ok r →
      (handlers.submit_transaction ch sreq st).2.metrics
        = st.metrics ++ ["submit_transaction"]) ∧
    (∀ e, (KaspaClient.get_dag_tips ch st.client).1 = .error e →
      (handlers.get_dag_tips ch st).2.metrics = st.metrics) ∧
    (∀ r, (KaspaClient.get_dag_tips ch st.client).1 = .ok r →
      (handlers.get_dag_tips ch st).2.metrics = st.metrics ++ ["get_dag_tips"]) := by
  refine ⟨fun hv => ?_, fun e he => ?_, fun r hv hr => ?_,
    fun ptx e hc he => ?_, fun ptx r hc hr => ?_, fun e he => ?_, fun r hr => ?_⟩
  · unfold handlers.get_block
    simp [hv]
  · unfold handlers.get_block
    cases hv : is_valid_hash req.hash
    · simp [hv]
    · simp only [hv, Bool.not_true, Bool.false_eq_true, if_false, ite_false]
      rw [he]
  · unfold handlers.get_block
    simp only [hv, Bool.not_true, Bool.false_eq_true, if_false, ite_false]
    rw [hr]
    split <;> (try split) <;> (try split) <;> simp_all [record_latency]
  · unfold handlers.submit_transaction
    rw [hc]
    simp only []
    rw [he]
  · unfold handlers.submit_transaction
    rw [hc]
    simp only []
    rw [hr]
    simp [record_latency]
  · unfold handlers.get_dag_tips
    simp only []
    rw [he]
  · unfold handlers.get_dag_tips
    simp only []
    rw [hr]
    simp [record_latency]

/-- **C7 counterexample**: a unary call that completes with a failure (the
upstream stream ends with no reply) leaves the `record_latency` invocation
log empty — `record_latency` is invoked zero times, not once, on this
failure path. -/
theorem record_latency_skipped_on_failure :
    (handlers.get_block emptyChannel
        { hash := sampleHash, include_transactions := true } hst0).1
      = .error (.InvalidResponse "Empty response stream") ∧
    (handlers.get_block emptyChannel
        { hash := sampleHash, include_transactions := true } hst0).2.metrics = [] ∧
    is_valid_hash sampleHash = true := by
  refine ⟨?_, ?_, by decide⟩ <;> rfl

/-- Witness for the amended C7: on the empty-stream channel the RPC call of
`get_block` fails, and the handler leaves the metrics log unchanged. -/
theorem record_latency_exactly_on_rpc_success_witness :
    (KaspaClient.get_block emptyChannel sampleHash true st0).1
      = .error (.InvalidResponse "Empty response stream") ∧
    (handlers.get_block emptyChannel
        { hash := sampleHash, include_transactions := true } hst0).2.metrics
      = hst0.metrics := by
  refine ⟨rfl, ?_⟩
  exact (record_latency_exactly_on_rpc_success emptyChannel
      { hash := sampleHash, include_transactions := true }
      { transaction := { version := none, inputs := [], outputs := []
                       , lock_time := none, subnetwork_id := none
                       , gas := none, payload := none }
      , allow_orphan := false }
      hst0).2.1
    (.InvalidResponse "Empty response stream") rfl

/-- **C10**: the `get_block` response conversion coerces absent optional
sub-fields to defaults instead of keeping them absent: no verbose data gives
empty-string transaction id and hash, no previous outpoint gives an empty
transaction id and index 0, no script public key gives the empty string —
and a transaction with absent verbose data converts identically to one whose
verbose data is present but all-empty, so the consumer cannot tell them
apart. -/
theorem get_block_conversion_defaults_absent_fields
    (tx : RpcTransaction) (input : RpcTransactionInput)
    (output : RpcTransactionOutput) (block : RpcBlock) (header : RpcBlockHeader) :
    (tx.verbose_data = none →
      (getBlockConvertTransaction tx).transaction_id = "" ∧
      (getBlockConvertTransaction tx).hash = "") ∧
    (input.previous_outpoint = none →
      (getBlockConvertTransaction { tx with inputs := [input] }).inputs =
        [{ previous_outpoint := { transaction_id := "", index := 0 }
         , signature_script := input.signature_script
         , sequence := input.sequence }]) ∧
    (output.script_public_key = none →
      (getBlockConvertTransaction { tx with outputs := [output] }).outputs =
        [{ amount := output.amount, script_public_key := "" }]) ∧
    ((getBlockConvert block header).transactions =
      block.transactions.map getBlockConvertTransaction) ∧
    (getBlockConvertTransaction { tx with verbose_data := none } =
      getBlockConvertTransaction
        { tx with verbose_data := some { transaction_id := "", hash := "" } }) := by
  refine ⟨fun h => ?_, fun h => ?_, fun h => ?_, rfl, ?_⟩
  · exact ⟨by simp [getBlockConvertTransaction, h], by simp [getBlockConvertTransaction, h]⟩
  · simp [getBlockConvertTransaction, h]
  · simp [getBlockConvertTransaction, h]
  · simp [getBlockConvertTransaction]

/-- Witness for C10 at concrete inputs with all optional sub-fields
absent. -/
theorem get_block_conversion_defaults_absent_fields_witness :
    ((getBlockConvertTransaction tx0).transaction_id = "" ∧
      (getBlockConvertTransaction tx0).hash = "") ∧
    ((getBlockConvertTransaction
        { tx0 with inputs := [{ previous_outpoint := none
                              , signature_script := "sig"
                              , sequence := 4, sig_op_count := 1 }] }).inputs =
      [{ previous_outpoint := { transaction_id := "", index := 0 }
       , signature_script := "sig", sequence := 4 }]) ∧
    ((getBlockConvertTransaction
        { tx0 with outputs := [{ amount := 5, script_public_key := none }] }).outputs =
      [{ amount := 5, script_public_key := "" }]) := by
  have h := get_block_conversion_defaults_absent_fields tx0
    { previous_outpoint := none, signature_script := "sig"
    , sequence := 4, sig_op_count := 1 }
    { amount := 5, script_public_key := none }
    { header := none, transactions := [], verbose_data := none }
    { hash := "", version := 0, hash_merkle_root := "", accepted_id_merkle_root := ""
    , utxo_commitment := "", timestamp := 0, bits := 0, nonce := 0, daa_score := 0
    , blue_work := "", blue_score := 0, pruning_point := "" }
  exact ⟨h.1 rfl, h.2.1 rfl, h.2.2.1 rfl⟩

end KaspaProxy
